import Mathlib

/-!
Shallow embedding of the musicore fixture generators:

* `src/backend/tests/fixtures/generate_100_measures.py` — the Offset Duplicator:
  walks score → instruments → staves → voices with key-existence checks and, for
  every voice exposing `interval_events`, appends a deep copy of every original
  event with its `start_tick` shifted by `max(start_tick) + 7680`.
* `src/generate_dense_fixture.py` — the Pattern Synthesizer: builds a 30-measure
  two-staff piano score of eighth notes (240 notes per staff).

JSON dictionaries are modelled as structures; the keys the Python code probes
with `'k' in d` before descending are modelled as `Option` fields.  The one-field
wrappers `{"value": N}` around ticks and pitches are flattened to the integer.
Python exceptions (the `ValueError` raised by `max()` on an empty sequence) are
modelled with `Except String`; in-place mutation is modelled by returning the
updated document.
-/

namespace Musicore

set_option maxRecDepth 1000000

/-- Tagged structural-event variants of the JSON schema:
`{Tempo:{tick,bpm}}`, `{TimeSignature:{tick,numerator,denominator}}`,
`{Clef:{tick,clef}}`, `{KeySignature:{tick,fifths}}`. -/
inductive StructuralEvent where
  | Tempo (tick : Int) (bpm : Int)
  | TimeSignature (tick : Int) (numerator : Int) (denominator : Int)
  | Clef (tick : Int) (clef : String)
  | KeySignature (tick : Int) (fifths : Int)
deriving DecidableEq, Repr

/-- An interval event ("note") record:
`{id, start_tick:{value}, duration_ticks, pitch:{value}}`. -/
structure IntervalEvent where
  id : String
  start_tick : Int
  duration_ticks : Int
  pitch : Int
deriving DecidableEq, Repr, Inhabited

/-- A voice: `{id, interval_events}`; `interval_events` is optional because the
duplicator probes `'interval_events' in voice` before touching it. -/
structure Voice where
  id : String
  interval_events : Option (List IntervalEvent)
deriving DecidableEq, Repr

/-- A staff: `{id, staff_structural_events, voices}`; `voices` is optional
because the duplicator probes `'voices' in staff`. -/
structure Staff where
  id : String
  staff_structural_events : List StructuralEvent
  voices : Option (List Voice)
deriving DecidableEq, Repr

/-- An instrument: `{id, name, instrument_type, staves}`; `staves` is optional
because the duplicator probes `'staves' in instrument`. -/
structure Instrument where
  id : String
  name : String
  instrument_type : String
  staves : Option (List Staff)
deriving DecidableEq, Repr

/-- The score document root: `{id, global_structural_events, instruments}`;
`instruments` is optional because the duplicator probes
`'instruments' in score`. -/
structure Score where
  id : String
  global_structural_events : List StructuralEvent
  instruments : Option (List Instrument)
deriving DecidableEq, Repr

/-! ## Offset Duplicator (generate_100_measures.py) -/

/-- The hard-coded offset added after the last measure
(`+ 7680` on line 20 of generate_100_measures.py). -/
def measure_width : Int := 7680

/-- The per-event copy-and-shift of lines 24-25: a deep copy of the note with
`start_tick.value` increased by the offset. -/
def shiftNote (offset : Int) (n : IntervalEvent) : IntervalEvent :=
  { n with start_tick := n.start_tick + offset }

/-- Lines 19-26 of generate_100_measures.py for one voice.  `original_notes` is
a snapshot of the current list; Python's `max()` over the start ticks is
`List.max?` (a `ValueError` on an empty sequence becomes `Except.error`);
`max_tick` is that maximum plus 7680, and every snapshot note is appended again
with its start tick shifted by `max_tick`. -/
def duplicateVoiceEvents (events : List IntervalEvent) :
    Except String (List IntervalEvent) :=
  match (events.map (fun n => n.start_tick)).max? with
  | none => Except.error "max() arg is an empty sequence"
  | some m =>
    let max_tick := m + measure_width
    Except.ok (events ++ events.map (shiftNote max_tick))

/-- Sequential traversal of a list of sub-records where the first raised
exception aborts the pass (Python `for` loop semantics under exceptions). -/
def mapExcept (f : α → Except String β) : List α → Except String (List β)
  | [] => Except.ok []
  | a :: as =>
    match f a with
    | Except.error e => Except.error e
    | Except.ok b =>
      match mapExcept f as with
      | Except.error e => Except.error e
      | Except.ok bs => Except.ok (b :: bs)

/-- Voice level of the duplication pass: the `'interval_events' in voice` check
(line 17) skips a voice without that key. -/
def duplicateVoice (v : Voice) : Except String Voice :=
  match v.interval_events with
  | none => Except.ok v
  | some evs =>
    match duplicateVoiceEvents evs with
    | Except.error e => Except.error e
    | Except.ok evs2 => Except.ok { v with interval_events := some evs2 }

/-- Staff level: the `'voices' in staff` check (line 15) skips a staff without
that key. -/
def duplicateStaff (s : Staff) : Except String Staff :=
  match s.voices with
  | none => Except.ok s
  | some vs =>
    match mapExcept duplicateVoice vs with
    | Except.error e => Except.error e
    | Except.ok vs2 => Except.ok { s with voices := some vs2 }

/-- Instrument level: the `'staves' in instrument` check (line 13) skips an
instrument without that key. -/
def duplicateInstrument (ins : Instrument) : Except String Instrument :=
  match ins.staves with
  | none => Except.ok ins
  | some sts =>
    match mapExcept duplicateStaff sts with
    | Except.error e => Except.error e
    | Except.ok sts2 => Except.ok { ins with staves := some sts2 }

/-- Top level of generate_100_measures.py (line 11):
`if 'instruments' in score and len(score['instruments']) > 0`. -/
def duplicateScore (sc : Score) : Except String Score :=
  match sc.instruments with
  | none => Except.ok sc
  | some insts =>
    if insts.length > 0 then
      match mapExcept duplicateInstrument insts with
      | Except.error e => Except.error e
      | Except.ok insts2 => Except.ok { sc with instruments := some insts2 }
    else Except.ok sc

/-! ## Pattern Synthesizer (generate_dense_fixture.py) -/

/-- `MEASURES = 30` -/
def MEASURES : Nat := 30

/-- `TICKS_PER_MEASURE = 3840` (4/4 time) -/
def TICKS_PER_MEASURE : Nat := 3840

/-- `EIGHTH_NOTE_DURATION = 480` (960 / 2) -/
def EIGHTH_NOTE_DURATION : Nat := 480

/-- `NOTES_PER_MEASURE = 8` -/
def NOTES_PER_MEASURE : Nat := 8

/-- `treble_pitches = [60, 62, 64, 65, 67, 69, 71, 72]` (C4 to C5) -/
def treble_pitches : List Int := [60, 62, 64, 65, 67, 69, 71, 72]

/-- `bass_pitches = [48, 50, 52, 53, 55, 57, 59, 60]` (C3 to C4) -/
def bass_pitches : List Int := [48, 50, 52, 53, 55, 57, 59, 60]

/-- Python's `f"{n:04d}"` for a non-negative `n`: the decimal digits left-padded
with zeros to width 4. -/
def pad4 (n : Nat) : String :=
  let s := toString n
  String.mk (List.replicate (4 - s.length) '0') ++ s

/-- The note identifier template
`f"tn{note_counter:04d}-8400-e29b-41d4-a716-446655440000"` (and `bn…`). -/
def noteId (tag : String) (counter : Nat) : String :=
  tag ++ pad4 counter ++ "-8400-e29b-41d4-a716-446655440000"

/-- The per-staff note-generation double loop (lines 34-46 and 53-65 of
generate_dense_fixture.py), parametrized by the constants it reads:
for each `measure < measures` and `note_idx < notesPerMeasure`, a note at tick
`measure * ticksPerMeasure + note_idx * noteDuration` with pitch
`pitches[note_idx % len(pitches)]` and identifier minted from a counter that
starts at `counterStart` and increments once per note. -/
def genStaffNotes (tag : String) (counterStart : Nat) (pitches : List Int)
    (measures ticksPerMeasure noteDuration notesPerMeasure : Nat) :
    List IntervalEvent :=
  (List.range measures).flatMap (fun measure =>
    (List.range notesPerMeasure).map (fun note_idx =>
      let measure_start := measure * ticksPerMeasure
      let tick := measure_start + note_idx * noteDuration
      let pitch := pitches.getD (note_idx % pitches.length) 0
      let counter := counterStart + measure * notesPerMeasure + note_idx
      { id := noteId tag counter
        start_tick := (tick : Int)
        duration_ticks := (noteDuration : Int)
        pitch := pitch }))

/-- The treble-staff notes: counter seeded at 10 with tag "tn". -/
def treble_notes : List IntervalEvent :=
  genStaffNotes "tn" 10 treble_pitches
    MEASURES TICKS_PER_MEASURE EIGHTH_NOTE_DURATION NOTES_PER_MEASURE

/-- The bass-staff notes: counter seeded at 10000 with tag "bn". -/
def bass_notes : List IntervalEvent :=
  genStaffNotes "bn" 10000 bass_pitches
    MEASURES TICKS_PER_MEASURE EIGHTH_NOTE_DURATION NOTES_PER_MEASURE

/-- The complete score structure built by `generate_dense_fixture`
(lines 68-150 of generate_dense_fixture.py). -/
def generate_dense_fixture : Score :=
  { id := "aa0e8400-e29b-41d4-a716-446655440000"
    global_structural_events :=
      [StructuralEvent.Tempo 0 120, StructuralEvent.TimeSignature 0 4 4]
    instruments := some
      [{ id := "bb0e8400-e29b-41d4-a716-446655440001"
         name := "Piano"
         instrument_type := "piano"
         staves := some
           [{ id := "cc0e8400-e29b-41d4-a716-446655440002"
              staff_structural_events :=
                [StructuralEvent.Clef 0 "Treble", StructuralEvent.KeySignature 0 0]
              voices := some
                [{ id := "ee0e8400-e29b-41d4-a716-446655440004"
                   interval_events := some treble_notes }] },
            { id := "dd0e8400-e29b-41d4-a716-446655440003"
              staff_structural_events :=
                [StructuralEvent.Clef 0 "Bass", StructuralEvent.KeySignature 0 0]
              voices := some
                [{ id := "ff0e8400-e29b-41d4-a716-446655440005"
                   interval_events := some bass_notes }] }] }] }

/-! ## Observation helpers used only to state properties -/

/-- All voices of a document, in traversal order. -/
def scoreVoices (sc : Score) : List Voice :=
  (sc.instruments.getD []).flatMap (fun ins =>
    (ins.staves.getD []).flatMap (fun st => st.voices.getD []))

/-- All interval events of a document, in traversal order. -/
def scoreEvents (sc : Score) : List IntervalEvent :=
  (scoreVoices sc).flatMap (fun v => v.interval_events.getD [])

/-- Differences between consecutive entries of a list of ticks. -/
def consecutiveDiffs (l : List Int) : List Int :=
  (l.zip l.tail).map (fun p => p.2 - p.1)

/-- The concrete voice of Scenario B: three events at ticks 0, 480, 960. -/
def scenarioB : List IntervalEvent :=
  [⟨"n1", 0, 480, 60⟩, ⟨"n2", 480, 480, 62⟩, ⟨"n3", 960, 480, 64⟩]

/-- The result of one duplication pass on `scenarioB`: duplicates land at
ticks 8640, 9120, 9600, for a final voice size of 6. -/
def scenarioBDup : List IntervalEvent :=
  [⟨"n1", 0, 480, 60⟩, ⟨"n2", 480, 480, 62⟩, ⟨"n3", 960, 480, 64⟩,
   ⟨"n1", 8640, 480, 60⟩, ⟨"n2", 9120, 480, 62⟩, ⟨"n3", 9600, 480, 64⟩]

/-- The identifier strings of the treble staff, in generation order. -/
def treble_ids : List String := treble_notes.map (fun n => n.id)

/-- The identifier strings of the bass staff, in generation order. -/
def bass_ids : List String := bass_notes.map (fun n => n.id)

/-- Injection of the first seven characters of an identifier into an integer
(used only to make identifier distinctness cheap to check: two strings with
different `idKey` values are different strings). -/
def idKey (s : String) : Int :=
  (s.toList.take 7).foldl (fun a c => a * 256 + (c.toNat : Int)) 0

/-- A concrete one-voice document used to exercise the duplication pass. -/
def demoVoice : Voice := ⟨"v1", some scenarioB⟩

/-- The voice of `demoVoice` after one duplication pass. -/
def demoVoiceDup : Voice := ⟨"v1", some scenarioBDup⟩

def demoStaff : Staff := ⟨"st1", [], some [demoVoice]⟩

def demoStaffDup : Staff := ⟨"st1", [], some [demoVoiceDup]⟩

def demoInstrument : Instrument := ⟨"i1", "Piano", "piano", some [demoStaff]⟩

def demoInstrumentDup : Instrument := ⟨"i1", "Piano", "piano", some [demoStaffDup]⟩

def demoScore : Score := ⟨"s1", [], some [demoInstrument]⟩

def demoScoreDup : Score := ⟨"s1", [], some [demoInstrumentDup]⟩

/-! ## Helper lemmas -/

instance : Std.Antisymm (fun a b : Int => a ≤ b) where
  antisymm h h' := le_antisymm h h'

/-- `List.max?` on integers returns exactly the maximum: a member that bounds
every member. -/
theorem int_max?_eq_some_iff {xs : List Int} {a : Int} :
    xs.max? = some a ↔ a ∈ xs ∧ ∀ b ∈ xs, b ≤ a :=
  List.max?_eq_some_iff (fun a => le_refl a) (fun a b => max_choice a b)
    (fun _ _ _ => max_le_iff)

/-- Successful sequential traversal relates input and output pointwise. -/
theorem mapExcept_ok_iff {f : α → Except String β} {l : List α} {l' : List β} :
    mapExcept f l = Except.ok l' ↔
      List.Forall₂ (fun a b => f a = Except.ok b) l l' := by
  induction l generalizing l' with
  | nil =>
    simp only [mapExcept]
    constructor
    · intro h; cases h; exact List.Forall₂.nil
    · intro h; cases h; rfl
  | cons a as ih =>
    simp only [mapExcept]
    constructor
    · intro h
      cases hfa : f a with
      | error e => rw [hfa] at h; cases h
      | ok b =>
        rw [hfa] at h
        cases hrec : mapExcept f as with
        | error e => rw [hrec] at h; cases h
        | ok bs =>
          rw [hrec] at h
          cases h
          exact List.Forall₂.cons hfa (ih.mp hrec)
    · intro h
      cases h with
      | cons hab hrest => rw [hab, ih.mpr hrest]

/-- A successful per-voice duplication is exactly: the original events followed
by their copies shifted by the original maximum tick plus the measure width. -/
theorem duplicateVoiceEvents_ok {events out : List IntervalEvent}
    (h : duplicateVoiceEvents events = Except.ok out) :
    ∃ m, (events.map (fun n => n.start_tick)).max? = some m ∧
      out = events ++ events.map (shiftNote (m + measure_width)) := by
  unfold duplicateVoiceEvents at h
  cases hm : (events.map (fun n => n.start_tick)).max? with
  | none => rw [hm] at h; cases h
  | some m =>
    rw [hm] at h
    cases h
    exact ⟨m, rfl, rfl⟩

/-! ## Claims -/

/-- C1: for every voice whose original interval-event list is non-empty, one
duplication pass gives each original event with start tick `t` a duplicated
counterpart (at position `k + i` for the original at position `i`) whose start
tick is exactly `t + (m + measure_width)`, where `m` is the maximum start tick
over the original events only and `measure_width` is 7680. -/
theorem C1_duplication_offset (events out : List IntervalEvent) (m : Int)
    (hm : (events.map (fun n => n.start_tick)).max? = some m)
    (hout : duplicateVoiceEvents events = Except.ok out) :
    (∀ e ∈ events, e.start_tick ≤ m) ∧
    m ∈ events.map (fun n => n.start_tick) ∧
    measure_width = 7680 ∧
    ∀ i, i < events.length →
      out[events.length + i]? = (events[i]?).map (shiftNote (m + measure_width)) := by
  obtain ⟨hmem, hub⟩ := int_max?_eq_some_iff.mp hm
  obtain ⟨m', hm', hout'⟩ := duplicateVoiceEvents_ok hout
  rw [hm] at hm'
  cases hm'
  refine ⟨?_, hmem, rfl, ?_⟩
  · intro e he
    exact hub _ (List.mem_map_of_mem _ he)
  · intro i _
    subst hout'
    rw [List.getElem?_append_right (Nat.le_add_right _ _), Nat.add_sub_cancel_left,
      List.getElem?_map]

/-- C1 witness: Scenario B — a voice with events at ticks 0, 480, 960 gains
duplicates at ticks 8640, 9120, 9600 (and the pass produces 6 events). -/
theorem C1_duplication_offset_witness :
    scenarioBDup.map (fun n => n.start_tick) = [0, 480, 960, 8640, 9120, 9600] ∧
    ((∀ e ∈ scenarioB, e.start_tick ≤ 960) ∧
     (960 : Int) ∈ scenarioB.map (fun n => n.start_tick) ∧
     measure_width = 7680 ∧
     ∀ i, i < scenarioB.length →
       scenarioBDup[scenarioB.length + i]? =
         (scenarioB[i]?).map (shiftNote (960 + measure_width))) :=
  ⟨by decide, C1_duplication_offset scenarioB scenarioBDup 960 (by decide) (by rfl)⟩

/-- C2: for every voice with `k` original interval events, a successful
duplication pass yields exactly `2k` events, and for every `i < k` the event at
position `k + i` has the same `duration_ticks` and `pitch` as the event at
position `i` of the original list (the appended half preserves original
order). -/
theorem C2_duplication_cardinality (events out : List IntervalEvent)
    (hout : duplicateVoiceEvents events = Except.ok out) :
    out.length = 2 * events.length ∧
    ∀ i, i < events.length →
      (out[events.length + i]?).map (fun n => n.duration_ticks)
        = (events[i]?).map (fun n => n.duration_ticks) ∧
      (out[events.length + i]?).map (fun n => n.pitch)
        = (events[i]?).map (fun n => n.pitch) := by
  obtain ⟨m, hm, rfl⟩ := duplicateVoiceEvents_ok hout
  constructor
  · simp [List.length_append, List.length_map, two_mul]
  · intro i _
    rw [List.getElem?_append_right (Nat.le_add_right _ _), Nat.add_sub_cancel_left,
      List.getElem?_map]
    cases events[i]? with
    | none => simp
    | some e => simp [shiftNote]

/-- C2 witness: Scenario B has 3 original events and 6 after the pass, with
durations and pitches of the appended half matching the original half. -/
theorem C2_duplication_cardinality_witness :
    scenarioBDup.length = 2 * scenarioB.length ∧
    ∀ i, i < scenarioB.length →
      (scenarioBDup[scenarioB.length + i]?).map (fun n => n.duration_ticks)
        = (scenarioB[i]?).map (fun n => n.duration_ticks) ∧
      (scenarioBDup[scenarioB.length + i]?).map (fun n => n.pitch)
        = (scenarioB[i]?).map (fun n => n.pitch) :=
  C2_duplication_cardinality scenarioB scenarioBDup (by rfl)

/-- C3: after a successful duplication pass on a voice of original size `k`,
the first `k` positions of the result are the original events themselves, and
the event at position `k + i` carries the same identifier string as the event
at position `i` — the duplicator mints no fresh identifiers. -/
theorem C3_duplicated_ids_shared (events out : List IntervalEvent)
    (hout : duplicateVoiceEvents events = Except.ok out) :
    ∀ i, i < events.length →
      out[i]? = events[i]? ∧
      (out[events.length + i]?).map (fun n => n.id)
        = (events[i]?).map (fun n => n.id) := by
  obtain ⟨m, hm, rfl⟩ := duplicateVoiceEvents_ok hout
  intro i hi
  constructor
  · exact List.getElem?_append_left hi
  · rw [List.getElem?_append_right (Nat.le_add_right _ _), Nat.add_sub_cancel_left,
      List.getElem?_map]
    cases events[i]? with
    | none => simp
    | some e => simp [shiftNote]

/-- C3 witness: in Scenario B the events at positions 0 and 3 share their
identifier. -/
theorem C3_duplicated_ids_shared_witness :
    scenarioBDup[0]? = scenarioB[0]? ∧
    (scenarioBDup[scenarioB.length + 0]?).map (fun n => n.id)
      = (scenarioB[0]?).map (fun n => n.id) :=
  C3_duplicated_ids_shared scenarioB scenarioBDup (by rfl) 0 (by decide)

/-- C4: duplicating a voice whose interval-event list is empty signals an
explicit error (Python's `ValueError` from `max()` over the empty sequence of
start ticks) instead of completing; no result document is produced, and the
error arises only for the empty voice — every non-empty voice completes. -/
theorem C4_empty_voice_error (v : Voice) (h : v.interval_events = some []) :
    duplicateVoice v = Except.error "max() arg is an empty sequence" ∧
    (∀ v' : Voice, duplicateVoice v ≠ Except.ok v') ∧
    ∀ events : List IntervalEvent, events ≠ [] →
      ∃ out, duplicateVoiceEvents events = Except.ok out := by
  have h1 : duplicateVoice v = Except.error "max() arg is an empty sequence" := by
    simp [duplicateVoice, h, duplicateVoiceEvents]
  refine ⟨h1, ?_, ?_⟩
  · intro v' hv'
    rw [h1] at hv'
    cases hv'
  · intro events hne
    unfold duplicateVoiceEvents
    cases hm : (events.map (fun n => n.start_tick)).max? with
    | none =>
      rw [List.max?_eq_none_iff, List.map_eq_nil_iff] at hm
      exact absurd hm hne
    | some m => exact ⟨_, rfl⟩

/-- The double loop of the synthesizer emits one note per (measure, note_idx)
pair: `measures * notesPerMeasure` notes in total. -/
theorem genStaffNotes_length (tag : String) (c0 : Nat) (pitches : List Int)
    (M T D N : Nat) : (genStaffNotes tag c0 pitches M T D N).length = M * N := by
  unfold genStaffNotes
  simp [List.length_flatMap, Function.comp_def, List.length_map, List.length_range,
    List.map_const', List.sum_replicate, smul_eq_mul]

theorem consecutiveDiffs_cons (a b : Int) (t : List Int) :
    consecutiveDiffs (a :: b :: t) = (b - a) :: consecutiveDiffs (b :: t) := rfl

/-- A list of ticks whose consecutive differences are all positive ascends
strictly from entry to entry. -/
theorem chain'_lt_of_diffs : (l : List Int) →
    (∀ d ∈ consecutiveDiffs l, 0 < d) → List.Chain' (fun a b : Int => a < b) l
  | [], _ => List.chain'_nil
  | [a], _ => List.chain'_singleton a
  | a :: b :: t, h => by
    rw [List.chain'_cons]
    refine ⟨?_, chain'_lt_of_diffs (b :: t) ?_⟩
    · have h0 := h (b - a) (by rw [consecutiveDiffs_cons]; exact List.mem_cons_self _ _)
      omega
    · intro d hd
      exact h d (by rw [consecutiveDiffs_cons]; exact List.mem_cons_of_mem _ hd)

/-- C4 witness: a concrete voice with an empty `interval_events` list. -/
theorem C4_empty_voice_error_witness :
    duplicateVoice ⟨"v1", some []⟩ =
      Except.error "max() arg is an empty sequence" ∧
    (∀ v' : Voice, duplicateVoice ⟨"v1", some []⟩ ≠ Except.ok v') ∧
    ∀ events : List IntervalEvent, events ≠ [] →
      ∃ out, duplicateVoiceEvents events = Except.ok out :=
  C4_empty_voice_error ⟨"v1", some []⟩ rfl

/-- C5: the synthesizer produces exactly `measure_count * notes_per_measure`
interval events per staff; with the fixed parameters both staves of the dense
fixture hold 240 events, the last event of each staff starts at tick
`29 * 3840 + 7 * 480 = 114720`, and the total ticks spanned (last start plus
its duration) equal `measure_count * ticks_per_measure = 115200`. -/
theorem C5_synthesis_cardinality :
    (∀ (tag : String) (c0 : Nat) (pitches : List Int) (M T D N : Nat),
      (genStaffNotes tag c0 pitches M T D N).length = M * N) ∧
    (scoreVoices generate_dense_fixture).map
      (fun v => (v.interval_events.getD []).length) = [240, 240] ∧
    MEASURES * NOTES_PER_MEASURE = 240 ∧
    treble_notes.getLast?.map (fun n => n.start_tick) = some 114720 ∧
    bass_notes.getLast?.map (fun n => n.start_tick) = some 114720 ∧
    29 * 3840 + 7 * 480 = 114720 ∧
    treble_notes.getLast?.map (fun n => n.start_tick + n.duration_ticks)
      = some ((MEASURES * TICKS_PER_MEASURE : Nat) : Int) ∧
    bass_notes.getLast?.map (fun n => n.start_tick + n.duration_ticks)
      = some ((MEASURES * TICKS_PER_MEASURE : Nat) : Int) ∧
    MEASURES * TICKS_PER_MEASURE = 115200 :=
  ⟨genStaffNotes_length, by decide, by decide, by decide, by decide, by decide,
   by decide, by decide, by decide⟩

/-- C6: in the dense fixture every consecutive-note tick gap within a staff is
480 ticks — the within-measure step `note_duration` and the measure-boundary
step `ticks_per_measure - (notes_per_measure - 1) * note_duration` are both
480 — so start ticks are strictly ascending in generation order. -/
theorem C6_tick_spacing :
    (EIGHTH_NOTE_DURATION : Int) = 480 ∧
    (TICKS_PER_MEASURE : Int)
      - ((NOTES_PER_MEASURE : Int) - 1) * (EIGHTH_NOTE_DURATION : Int) = 480 ∧
    consecutiveDiffs (treble_notes.map (fun n => n.start_tick))
      = List.replicate 239 480 ∧
    consecutiveDiffs (bass_notes.map (fun n => n.start_tick))
      = List.replicate 239 480 ∧
    List.Sorted (fun a b : Int => a < b) (treble_notes.map (fun n => n.start_tick)) ∧
    List.Sorted (fun a b : Int => a < b) (bass_notes.map (fun n => n.start_tick)) := by
  have hdt : consecutiveDiffs (treble_notes.map (fun n => n.start_tick))
      = List.replicate 239 480 := by decide
  have hdb : consecutiveDiffs (bass_notes.map (fun n => n.start_tick))
      = List.replicate 239 480 := by decide
  have pos : ∀ (l : List Int), consecutiveDiffs l = List.replicate 239 480 →
      ∀ d ∈ consecutiveDiffs l, 0 < d := by
    intro l hl d hd
    rw [hl, List.mem_replicate] at hd
    omega
  refine ⟨by decide, by decide, hdt, hdb, ?_, ?_⟩
  · exact List.chain'_iff_pairwise.mp
      (chain'_lt_of_diffs _ (pos _ hdt))
  · exact List.chain'_iff_pairwise.mp
      (chain'_lt_of_diffs _ (pos _ hdb))

/-- C7: in the freshly synthesized dense fixture no two interval events share
an identifier: the treble staff mints ids from a counter starting at 10 under
the "tn" tag, the bass staff from a counter starting at 10000 under "bn", so
ids are unique within each staff and never collide across staves. -/
theorem C7_identifier_uniqueness :
    ((scoreEvents generate_dense_fixture).map (fun n => n.id)).Nodup ∧
    (scoreEvents generate_dense_fixture).map (fun n => n.id)
      = treble_ids ++ bass_ids ∧
    treble_ids = (List.range 240).map (fun j => noteId "tn" (10 + j)) ∧
    bass_ids = (List.range 240).map (fun j => noteId "bn" (10000 + j)) := by
  have hsplit : (scoreEvents generate_dense_fixture).map (fun n => n.id)
      = treble_ids ++ bass_ids := by decide
  have hTd : ∀ d ∈ consecutiveDiffs (treble_ids.map idKey), 0 < d := by decide
  have hBd : ∀ d ∈ consecutiveDiffs (bass_ids.map idKey), 0 < d := by decide
  have hTlo : ∀ k ∈ treble_ids.map idKey, 99 * 2 ^ 48 ≤ k := by decide
  have hBhi : ∀ k ∈ bass_ids.map idKey, k < 99 * 2 ^ 48 := by decide
  have ndT : treble_ids.Nodup :=
    List.Nodup.of_map idKey
      ((List.chain'_iff_pairwise.mp (chain'_lt_of_diffs _ hTd)).nodup)
  have ndB : bass_ids.Nodup :=
    List.Nodup.of_map idKey
      ((List.chain'_iff_pairwise.mp (chain'_lt_of_diffs _ hBd)).nodup)
  have disj : List.Disjoint treble_ids bass_ids := by
    intro a haT haB
    have h1 := hTlo (idKey a) (List.mem_map_of_mem idKey haT)
    have h2 := hBhi (idKey a) (List.mem_map_of_mem idKey haB)
    omega
  refine ⟨?_, hsplit, by decide, by decide⟩
  rw [hsplit]
  exact List.nodup_append.mpr ⟨ndT, ndB, disj⟩

/-- C8: a document missing any expected key (`instruments`, `staves`,
`voices`, `interval_events`) at any hierarchy level is skipped at that level:
the pass completes there as a silent no-op, raising no error and leaving the
substructure under the missing key unchanged. -/
theorem C8_missing_keys_noop :
    (∀ sc : Score, sc.instruments = none → duplicateScore sc = Except.ok sc) ∧
    (∀ ins : Instrument, ins.staves = none →
      duplicateInstrument ins = Except.ok ins) ∧
    (∀ st : Staff, st.voices = none → duplicateStaff st = Except.ok st) ∧
    (∀ v : Voice, v.interval_events = none → duplicateVoice v = Except.ok v) := by
  refine ⟨?_, ?_, ?_, ?_⟩
  · intro sc h
    unfold duplicateScore
    rw [h]
  · intro ins h
    unfold duplicateInstrument
    rw [h]
  · intro st h
    unfold duplicateStaff
    rw [h]
  · intro v h
    unfold duplicateVoice
    rw [h]

/-- C8 witness: concrete records with the respective key absent pass through
the duplicator unchanged. -/
theorem C8_missing_keys_noop_witness :
    duplicateScore ⟨"s0", [], none⟩ = Except.ok ⟨"s0", [], none⟩ ∧
    duplicateInstrument ⟨"i0", "Piano", "piano", none⟩
      = Except.ok ⟨"i0", "Piano", "piano", none⟩ ∧
    duplicateStaff ⟨"st0", [], none⟩ = Except.ok ⟨"st0", [], none⟩ ∧
    duplicateVoice ⟨"v0", none⟩ = Except.ok ⟨"v0", none⟩ :=
  ⟨C8_missing_keys_noop.1 ⟨"s0", [], none⟩ rfl,
   C8_missing_keys_noop.2.1 ⟨"i0", "Piano", "piano", none⟩ rfl,
   C8_missing_keys_noop.2.2.1 ⟨"st0", [], none⟩ rfl,
   C8_missing_keys_noop.2.2.2 ⟨"v0", none⟩ rfl⟩

/-- C9: a successful duplication pass mutates only the voices' interval-event
lists.  Score id and global structural events, instrument id/name/type, staff
id and staff structural events, and voice ids are unchanged; the hierarchy is
traversed pointwise (each sub-record's result comes from duplicating that
sub-record alone, so sibling voices are independent); each voice's new list is
its original list followed by copies shifted by that voice's own maximum start
tick plus the measure width, so the first `k` entries (ticks, durations,
pitches and ids included) are unchanged. -/
theorem C9_frame_effects :
    (∀ sc sc' : Score, duplicateScore sc = Except.ok sc' →
      sc'.id = sc.id ∧
      sc'.global_structural_events = sc.global_structural_events ∧
      ∀ insts, sc.instruments = some insts →
        ∃ insts', sc'.instruments = some insts' ∧
          List.Forall₂ (fun a b => duplicateInstrument a = Except.ok b)
            insts insts') ∧
    (∀ ins ins' : Instrument, duplicateInstrument ins = Except.ok ins' →
      ins'.id = ins.id ∧ ins'.name = ins.name ∧
      ins'.instrument_type = ins.instrument_type ∧
      ∀ sts, ins.staves = some sts →
        ∃ sts', ins'.staves = some sts' ∧
          List.Forall₂ (fun a b => duplicateStaff a = Except.ok b) sts sts') ∧
    (∀ st st' : Staff, duplicateStaff st = Except.ok st' →
      st'.id = st.id ∧
      st'.staff_structural_events = st.staff_structural_events ∧
      ∀ vs, st.voices = some vs →
        ∃ vs', st'.voices = some vs' ∧
          List.Forall₂ (fun a b => duplicateVoice a = Except.ok b) vs vs') ∧
    (∀ v v' : Voice, duplicateVoice v = Except.ok v' →
      v'.id = v.id ∧
      (v'.interval_events.getD []).take (v.interval_events.getD []).length
        = v.interval_events.getD [] ∧
      ∀ evs m, v.interval_events = some evs →
        (evs.map (fun n => n.start_tick)).max? = some m →
        v'.interval_events = some (evs ++ evs.map (shiftNote (m + measure_width)))) := by
  refine ⟨?_, ?_, ?_, ?_⟩
  · intro sc sc' h
    obtain ⟨sid, sgl, sins⟩ := sc
    cases sins with
    | none =>
      simp only [duplicateScore] at h
      injection h with h'
      subst h'
      exact ⟨rfl, rfl, fun insts hi => by cases hi⟩
    | some insts =>
      simp only [duplicateScore] at h
      by_cases hlen : insts.length > 0
      · rw [if_pos hlen] at h
        cases hmap : mapExcept duplicateInstrument insts with
        | error e => rw [hmap] at h; cases h
        | ok insts2 =>
          rw [hmap] at h
          injection h with h'
          subst h'
          refine ⟨rfl, rfl, fun insts0 hi => ?_⟩
          injection hi with hi'
          subst hi'
          exact ⟨insts2, rfl, mapExcept_ok_iff.mp hmap⟩
      · rw [if_neg hlen] at h
        injection h with h'
        subst h'
        have hnil : insts = [] := by
          cases insts with
          | nil => rfl
          | cons a as => exact absurd (by simp) hlen
        subst hnil
        refine ⟨rfl, rfl, fun insts0 hi => ?_⟩
        injection hi with hi'
        subst hi'
        exact ⟨[], rfl, List.Forall₂.nil⟩
  · intro ins ins' h
    obtain ⟨iid, inm, ity, ist⟩ := ins
    cases ist with
    | none =>
      simp only [duplicateInstrument] at h
      injection h with h'
      subst h'
      exact ⟨rfl, rfl, rfl, fun sts hs => by cases hs⟩
    | some sts =>
      simp only [duplicateInstrument] at h
      cases hmap : mapExcept duplicateStaff sts with
      | error e => rw [hmap] at h; cases h
      | ok sts2 =>
        rw [hmap] at h
        injection h with h'
        subst h'
        refine ⟨rfl, rfl, rfl, fun sts0 hs => ?_⟩
        injection hs with hs'
        subst hs'
        exact ⟨sts2, rfl, mapExcept_ok_iff.mp hmap⟩
  · intro st st' h
    obtain ⟨stid, stse, stvs⟩ := st
    cases stvs with
    | none =>
      simp only [duplicateStaff] at h
      injection h with h'
      subst h'
      exact ⟨rfl, rfl, fun vs hv => by cases hv⟩
    | some vs =>
      simp only [duplicateStaff] at h
      cases hmap : mapExcept duplicateVoice vs with
      | error e => rw [hmap] at h; cases h
      | ok vs2 =>
        rw [hmap] at h
        injection h with h'
        subst h'
        refine ⟨rfl, rfl, fun vs0 hv => ?_⟩
        injection hv with hv'
        subst hv'
        exact ⟨vs2, rfl, mapExcept_ok_iff.mp hmap⟩
  · intro v v' h
    obtain ⟨vid, vie⟩ := v
    cases vie with
    | none =>
      simp only [duplicateVoice] at h
      injection h with h'
      subst h'
      exact ⟨rfl, rfl, fun evs m he => by cases he⟩
    | some evs =>
      simp only [duplicateVoice] at h
      cases hdup : duplicateVoiceEvents evs with
      | error e => rw [hdup] at h; cases h
      | ok evs2 =>
        rw [hdup] at h
        injection h with h'
        subst h'
        obtain ⟨m, hm, hevs2⟩ := duplicateVoiceEvents_ok hdup
        refine ⟨rfl, ?_, ?_⟩
        · subst hevs2
          exact List.take_left evs _
        · intro evs0 m0 he hm0
          injection he with he'
          subst he'
          rw [hm] at hm0
          injection hm0 with hm0'
          subst hm0'
          rw [hevs2]

/-- C9 witness: the concrete one-voice document `demoScore` (voice at ticks
0, 480, 960) duplicates to `demoScoreDup`, and every frame condition holds of
that pass at each hierarchy level. -/
theorem C9_frame_effects_witness :
    (demoScoreDup.id = demoScore.id ∧
     demoScoreDup.global_structural_events = demoScore.global_structural_events ∧
     ∀ insts, demoScore.instruments = some insts →
       ∃ insts', demoScoreDup.instruments = some insts' ∧
         List.Forall₂ (fun a b => duplicateInstrument a = Except.ok b)
           insts insts') ∧
    (demoInstrumentDup.id = demoInstrument.id ∧
     demoInstrumentDup.name = demoInstrument.name ∧
     demoInstrumentDup.instrument_type = demoInstrument.instrument_type ∧
     ∀ sts, demoInstrument.staves = some sts →
       ∃ sts', demoInstrumentDup.staves = some sts' ∧
         List.Forall₂ (fun a b => duplicateStaff a = Except.ok b) sts sts') ∧
    (demoStaffDup.id = demoStaff.id ∧
     demoStaffDup.staff_structural_events = demoStaff.staff_structural_events ∧
     ∀ vs, demoStaff.voices = some vs →
       ∃ vs', demoStaffDup.voices = some vs' ∧
         List.Forall₂ (fun a b => duplicateVoice a = Except.ok b) vs vs') ∧
    (demoVoiceDup.id = demoVoice.id ∧
     (demoVoiceDup.interval_events.getD []).take
         (demoVoice.interval_events.getD []).length
       = demoVoice.interval_events.getD [] ∧
     ∀ evs m, demoVoice.interval_events = some evs →
       (evs.map (fun n => n.start_tick)).max? = some m →
       demoVoiceDup.interval_events
         = some (evs ++ evs.map (shiftNote (m + measure_width)))) :=
  ⟨C9_frame_effects.1 demoScore demoScoreDup (by rfl),
   C9_frame_effects.2.1 demoInstrument demoInstrumentDup (by rfl),
   C9_frame_effects.2.2.1 demoStaff demoStaffDup (by rfl),
   C9_frame_effects.2.2.2 demoVoice demoVoiceDup (by rfl)⟩

/-- C10: the two staves of the dense fixture are rhythmically aligned
note-for-note: position by position the bass note has the same start tick as
the treble note, both durations are 480 ticks, and the bass pitch is exactly
the treble pitch minus 12 semitones, across all 240 note positions. -/
theorem C10_staff_alignment :
    treble_notes.length = 240 ∧
    bass_notes.length = 240 ∧
    bass_notes.map (fun n => n.start_tick)
      = treble_notes.map (fun n => n.start_tick) ∧
    bass_notes.map (fun n => n.pitch)
      = treble_notes.map (fun n => n.pitch - 12) ∧
    treble_notes.map (fun n => n.duration_ticks) = List.replicate 240 480 ∧
    bass_notes.map (fun n => n.duration_ticks) = List.replicate 240 480 :=
  ⟨by decide, by decide, by decide, by decide, by decide, by decide⟩

end Musicore
